import Mathlib

/-
Shallow embedding of the real-time fan-out / notification layer of the
AlishbaAnas TaskManager server.

Source files embedded:
  - src/server/db.ts  (routes document): broadcastMessage, sendMessageToUser,
    the POST /api/tasks, POST /api/tasks/:id/comments, POST /api/tasks/:id/time
    and PUT /api/notifications/:id/read handlers, and the WebSocket
    connection/handshake handler;
  - src/server/storage.ts: the MemStorage notification/comment/time-entry/task
    collections and their methods (createNotification, markNotificationAsRead,
    createComment, createTimeEntry, getTask, getTaskAssignees), plus the
    record built by DatabaseStorage.createNotification.

Modelling conventions:
  - JS numbers that carry entity ids, user ids and timestamps are modelled as
    Nat (ids are assigned from counters that start at 1).  `new Date()` is
    abstracted to a Nat timestamp parameter threaded into each handler call.
  - JS `undefined`/`null` record fields are modelled as Option.  JS truthiness
    is modelled explicitly where the source relies on it: a Nat user id is
    falsy exactly when it is 0, a string is falsy exactly when it is empty.
  - JS Maps are modelled as association lists with JS Map semantics
    (set replaces an existing key in place, appends new keys at the end).
  - A WebSocket handle is an opaque Nat; its readyState === OPEN test is an
    (isOpen : Nat → Bool) parameter.  JSON.stringify is modelled by a
    deterministic printer over a JSON value type (string escaping elided).
  - Async callbacks (session-store lookup) and transport events (close) are
    modelled as explicit state-transition functions so that their possible
    interleavings can be analysed.
-/

namespace TaskMgr

/-! ## JSON values and JSON.stringify -/

inductive Json where
  | null : Json
  | bool : Bool → Json
  | num : Nat → Json
  | str : String → Json
  | arr : List Json → Json
  | obj : List (String × Json) → Json

def Json.stringify : Json → String
  | .null => "null"
  | .bool true => "true"
  | .bool false => "false"
  | .num n => toString n
  | .str s => "\x22" ++ s ++ "\x22"
  | .arr xs => "[" ++ String.intercalate "," (xs.attach.map (fun j => Json.stringify j.1)) ++ "]"
  | .obj fs => "\x7b" ++ String.intercalate ","
      (fs.attach.map (fun f => "\x22" ++ f.1.1 ++ "\x22:" ++ Json.stringify f.1.2)) ++ "\x7d"
decreasing_by
  · have := List.sizeOf_lt_of_mem j.2
    simp only [Json.arr.sizeOf_spec]
    omega
  · have h1 := List.sizeOf_lt_of_mem f.2
    have h2 : sizeOf (f.1).2 < sizeOf f.1 := by
      rcases f with ⟨⟨a, b⟩, hf⟩
      simp
    simp only [Json.obj.sizeOf_spec]
    omega

/-- Field lookup on a JSON object value (payload.userId etc.). -/
def Json.getField (j : Json) (key : String) : Option Json :=
  match j with
  | .obj fs => (fs.filter (fun f => f.1 == key)).head?.map Prod.snd
  | _ => none

/-! ## Wire messages (the `{ type, payload }` envelope of db.ts) -/

structure WSMessage where
  type : String
  payload : Json

/-- JSON.stringify of the message envelope, as done once at the top of
broadcastMessage / sendMessageToUser. -/
def WSMessage.serialize (m : WSMessage) : String :=
  Json.stringify (.obj [("type", .str m.type), ("payload", m.payload)])

/-! ## Connection registry (the module-global wsClients array of db.ts) -/

structure WSClient where
  userId : Nat
  socket : Nat

/-- The spec's connectionsFor(userId): the filter used inside
sendMessageToUser (`wsClients.filter(client => client.userId === userId)`). -/
def connectionsFor (wsClients : List WSClient) (userId : Nat) : List WSClient :=
  wsClients.filter (fun c => c.userId == userId)

/-- The exclusion test of broadcastMessage:
`!excludeUserId || client.userId !== excludeUserId`.
In JS `!excludeUserId` is true when excludeUserId is undefined (none) and also
when it is the falsy number 0. -/
def excludeCheck : Option Nat → Nat → Bool
  | none, _ => true
  | some u, clientUserId => u == 0 || clientUserId != u

/-- The forEach send loop of broadcastMessage: each client whose socket is
OPEN and passes the exclusion test is sent the pre-serialized string. -/
def broadcastSends (isOpen : Nat → Bool) (excludeUserId : Option Nat) (messageStr : String) :
    List WSClient → List (Nat × String)
  | [] => []
  | client :: rest =>
    if isOpen client.socket && excludeCheck excludeUserId client.userId then
      (client.socket, messageStr) :: broadcastSends isOpen excludeUserId messageStr rest
    else
      broadcastSends isOpen excludeUserId messageStr rest

/-- db.ts broadcastMessage: serialize the message once, then send that string
to every open registered connection passing the exclusion test.  The result is
the list of (socket, sent string) deliveries, in registry order. -/
def broadcastMessage (wsClients : List WSClient) (isOpen : Nat → Bool)
    (message : WSMessage) (excludeUserId : Option Nat) : List (Nat × String) :=
  let messageStr := message.serialize
  broadcastSends isOpen excludeUserId messageStr wsClients

/-- The forEach send loop of sendMessageToUser over the user's clients. -/
def openSends (isOpen : Nat → Bool) (messageStr : String) :
    List WSClient → List (Nat × String)
  | [] => []
  | c :: rest =>
    if isOpen c.socket then (c.socket, messageStr) :: openSends isOpen messageStr rest
    else openSends isOpen messageStr rest

/-- db.ts sendMessageToUser: serialize once, filter the registry to the
user's connections, send to each whose socket is OPEN. -/
def sendMessageToUser (wsClients : List WSClient) (isOpen : Nat → Bool)
    (userId : Nat) (message : WSMessage) : List (Nat × String) :=
  let messageStr := message.serialize
  openSends isOpen messageStr (wsClients.filter (fun client => client.userId == userId))

/-! ## Entity records (shared/schema.ts shapes, as built by MemStorage) -/

inductive TaskStatus where
  | todo | inProgress | completed

inductive TaskPriority where
  | low | medium | high

def TaskStatus.toWire : TaskStatus → String
  | .todo => "todo"
  | .inProgress => "inProgress"
  | .completed => "completed"

def TaskPriority.toWire : TaskPriority → String
  | .low => "low"
  | .medium => "medium"
  | .high => "high"

structure Task where
  id : Nat
  title : String
  description : Option String
  status : TaskStatus
  priority : TaskPriority
  dueDate : Option Nat
  createdAt : Nat
  estimatedHours : Option Nat
  createdById : Nat

structure TaskAssignee where
  id : Nat
  taskId : Nat
  userId : Nat

structure Comment where
  id : Nat
  taskId : Nat
  userId : Nat
  content : String
  createdAt : Nat

structure TimeEntry where
  id : Nat
  taskId : Nat
  userId : Nat
  startTime : Nat
  endTime : Option Nat
  duration : Option Nat
  notes : Option String

structure Notification where
  id : Nat
  userId : Nat
  title : String
  message : String
  type : String
  isRead : Bool
  createdAt : Nat
  relatedId : Option Nat

/-- The argument object the routes pass to storage.createNotification.
The insertNotificationSchema omits isRead, but at runtime the JS object
spread would copy an isRead property were one present, so it is carried here
as an optional field; createNotification overrides it unconditionally. -/
structure InsertNotification where
  userId : Nat
  type : String
  title : String
  message : String
  relatedId : Option Nat := none
  isRead : Option Bool := none

structure InsertComment where
  taskId : Nat
  userId : Nat
  content : String

structure InsertTimeEntry where
  taskId : Nat
  userId : Nat
  startTime : Nat
  endTime : Option Nat := none
  duration : Option Nat := none
  notes : Option String := none

/-! ## JS Map as an association list -/

/-- JS Map.get: first (unique) matching key. -/
def mapGet {α : Type} : List (Nat × α) → Nat → Option α
  | [], _ => none
  | (k, v) :: rest, i => if k == i then some v else mapGet rest i

/-- JS Map.set: replace an existing key in place, append a new key. -/
def mapSet {α : Type} : List (Nat × α) → Nat → α → List (Nat × α)
  | [], k, v => [(k, v)]
  | (k0, v0) :: rest, k, v =>
    if k0 == k then (k, v) :: rest else (k0, v0) :: mapSet rest k v

/-! ## MemStorage (src/server/storage.ts) — the collections the fan-out
layer touches, with their id counters (each starts at 1). -/

structure MemStorage where
  tasks : List (Nat × Task)
  taskAssignees : List (Nat × TaskAssignee)
  comments : List (Nat × Comment)
  timeEntries : List (Nat × TimeEntry)
  notifications : List (Nat × Notification)
  taskId : Nat
  assigneeId : Nat
  commentId : Nat
  timeEntryId : Nat
  notificationId : Nat

/-- The freshness invariant MemStorage maintains: every stored notification
key was assigned by a strictly increasing counter, so it is below the current
counter value.  Holds for the initial state (empty map, counter 1) and is
preserved by every notification operation. -/
def MemStorage.WFNotifications (s : MemStorage) : Prop :=
  ∀ p ∈ s.notifications, p.1 < s.notificationId

def MemStorage.getTask (s : MemStorage) (id : Nat) : Option Task :=
  mapGet s.tasks id

/-- MemStorage.getTaskAssignees: filter the assignee map's values by taskId. -/
def MemStorage.getTaskAssignees (s : MemStorage) (taskId : Nat) : List TaskAssignee :=
  (s.taskAssignees.map Prod.snd).filter (fun assignee => assignee.taskId == taskId)

def MemStorage.createComment (s : MemStorage) (now : Nat) (ins : InsertComment) :
    Comment × MemStorage :=
  let id := s.commentId
  let comment : Comment :=
    { id := id, taskId := ins.taskId, userId := ins.userId, content := ins.content,
      createdAt := now }
  (comment, { s with comments := mapSet s.comments id comment, commentId := id + 1 })

def MemStorage.createTimeEntry (s : MemStorage) (ins : InsertTimeEntry) :
    TimeEntry × MemStorage :=
  let id := s.timeEntryId
  let timeEntry : TimeEntry :=
    { id := id, taskId := ins.taskId, userId := ins.userId, startTime := ins.startTime,
      endTime := ins.endTime, duration := ins.duration, notes := ins.notes }
  (timeEntry, { s with timeEntries := mapSet s.timeEntries id timeEntry,
                       timeEntryId := id + 1 })

/-- MemStorage.createNotification: spread the insert object, then force
id, createdAt, isRead := false and relatedId := insert.relatedId ?? null
(the later literal fields win over any spread-in isRead). -/
def MemStorage.createNotification (s : MemStorage) (now : Nat) (ins : InsertNotification) :
    Notification × MemStorage :=
  let id := s.notificationId
  let notification : Notification :=
    { id := id, userId := ins.userId, title := ins.title, message := ins.message,
      type := ins.type, isRead := false, createdAt := now, relatedId := ins.relatedId }
  (notification, { s with notifications := mapSet s.notifications id notification,
                          notificationId := id + 1 })

/-- MemStorage.markNotificationAsRead: undefined if absent, else store and
return the record with isRead set to true. -/
def MemStorage.markNotificationAsRead (s : MemStorage) (id : Nat) :
    Option Notification × MemStorage :=
  match mapGet s.notifications id with
  | none => (none, s)
  | some notification =>
    let updated := { notification with isRead := true }
    (some updated, { s with notifications := mapSet s.notifications id updated })

/-- The notification record DatabaseStorage.createNotification builds and
inserts (storage.ts lines 310-322): identical construction to MemStorage,
with the id coming from the shared Counter. -/
def DatabaseStorage.createNotificationDoc (id now : Nat) (ins : InsertNotification) :
    Notification :=
  { id := id, userId := ins.userId, title := ins.title, message := ins.message,
    type := ins.type, isRead := false, createdAt := now, relatedId := ins.relatedId }

/-! ## Event payload builders (the object literals in db.ts) -/

def Json.mkOpt (f : α → Json) : Option α → Json
  | none => Json.null
  | some a => f a

def Task.toJson (t : Task) : Json :=
  .obj [("id", .num t.id), ("title", .str t.title),
        ("description", Json.mkOpt .str t.description),
        ("status", .str t.status.toWire), ("priority", .str t.priority.toWire),
        ("dueDate", Json.mkOpt .num t.dueDate), ("createdAt", .num t.createdAt),
        ("estimatedHours", Json.mkOpt .num t.estimatedHours),
        ("createdById", .num t.createdById)]

def Comment.toJson (c : Comment) : Json :=
  .obj [("id", .num c.id), ("taskId", .num c.taskId), ("userId", .num c.userId),
        ("content", .str c.content), ("createdAt", .num c.createdAt)]

def TimeEntry.toJson (te : TimeEntry) : Json :=
  .obj [("id", .num te.id), ("taskId", .num te.taskId), ("userId", .num te.userId),
        ("startTime", .num te.startTime), ("endTime", Json.mkOpt .num te.endTime),
        ("duration", Json.mkOpt .num te.duration), ("notes", Json.mkOpt .str te.notes)]

def Notification.toJson (n : Notification) : Json :=
  .obj [("id", .num n.id), ("userId", .num n.userId), ("title", .str n.title),
        ("message", .str n.message), ("type", .str n.type),
        ("isRead", .bool n.isRead), ("createdAt", .num n.createdAt),
        ("relatedId", Json.mkOpt .num n.relatedId)]

/-- `{ type: 'task_update', payload: { action: 'created', task } }` -/
def taskCreatedMsg (t : Task) : WSMessage :=
  { type := "task_update", payload := .obj [("action", .str "created"), ("task", t.toJson)] }

/-- `{ type: 'comment_added', payload: { comment, task } }` -/
def commentAddedMsg (c : Comment) (t : Task) : WSMessage :=
  { type := "comment_added", payload := .obj [("comment", c.toJson), ("task", t.toJson)] }

/-- `{ type: 'time_entry_added', payload: { taskId, userId, timeEntry, task } }` -/
def timeEntryAddedMsg (taskId userId : Nat) (te : TimeEntry) (t : Task) : WSMessage :=
  { type := "time_entry_added",
    payload := .obj [("taskId", .num taskId), ("userId", .num userId),
                     ("timeEntry", te.toJson), ("task", t.toJson)] }

/-- `{ type: 'notification', payload: notification }` -/
def notificationMsg (n : Notification) : WSMessage :=
  { type := "notification", payload := n.toJson }

/-- `{ type: 'connected', payload: { userId } }` -/
def connectedMsg (userId : Nat) : WSMessage :=
  { type := "connected", payload := .obj [("userId", .num userId)] }

/-! ## Handler side-effect traces

Each awaited side effect of a write handler is recorded, in program order:
persistence calls to the storage layer and dispatch calls to the fan-out
layer (broadcastMessage / sendMessageToUser). -/

inductive Effect where
  | persistTask : Task → Effect
  | persistComment : Comment → Effect
  | persistTimeEntry : TimeEntry → Effect
  | persistNotification : Notification → Effect
  | broadcast : WSMessage → Option Nat → Effect
  | sendToUser : Nat → WSMessage → Effect

def Effect.isBroadcast : Effect → Bool
  | .broadcast _ _ => true
  | _ => false

def Effect.isPersistNotification : Effect → Bool
  | .persistNotification _ => true
  | _ => false

/-- An effect that dispatches a socket event (broadcast or directed send). -/
def Effect.isDispatch : Effect → Bool
  | .broadcast _ _ => true
  | .sendToUser _ _ => true
  | _ => false

structure HandlerResult where
  status : Nat
  store : MemStorage
  trace : List Effect

/-! ## POST /api/tasks/:id/comments (db.ts lines 237-281) -/

/-- The `for (const assignee of assignees)` loop of the comment handler:
for each assignee other than the commenting actor, create (persist) a
notification and send it to that assignee as a directed `notification`
event.  Returns the updated store and the effects in loop order. -/
def notifyCommentAssignees (now taskId actor : Nat) (taskTitle : String) :
    List TaskAssignee → MemStorage → MemStorage × List Effect
  | [], s => (s, [])
  | assignee :: rest, s =>
    if assignee.userId ≠ actor then
      let r := MemStorage.createNotification s now
        { userId := assignee.userId, type := "comment_added", title := "New Comment",
          message := "New comment on task: " ++ taskTitle, relatedId := some taskId }
      let rec0 := notifyCommentAssignees now taskId actor taskTitle rest r.2
      (rec0.1, Effect.persistNotification r.1 ::
               Effect.sendToUser assignee.userId (notificationMsg r.1) :: rec0.2)
    else
      notifyCommentAssignees now taskId actor taskTitle rest s

/-- The comment-creation handler: persist the comment, fetch the task and its
assignees, and if the task exists broadcast `comment_added` excluding the
commenting actor, then run the assignee notification loop.  Responds 201
with the comment either way. -/
def postComment (s : MemStorage) (now taskId actor : Nat) (content : String) :
    HandlerResult :=
  let rc := MemStorage.createComment s now
    { taskId := taskId, userId := actor, content := content }
  match MemStorage.getTask rc.2 taskId with
  | none => { status := 201, store := rc.2, trace := [.persistComment rc.1] }
  | some task =>
    let assignees := MemStorage.getTaskAssignees rc.2 taskId
    let rn := notifyCommentAssignees now taskId actor task.title assignees rc.2
    { status := 201, store := rn.1,
      trace := Effect.persistComment rc.1 ::
               Effect.broadcast (commentAddedMsg rc.1 task) (some actor) :: rn.2 }

/-! ## POST /api/tasks/:id/time (db.ts lines 298-352) -/

/-- The `for (const notifyUserId of notifyUsers)` loop of the time-entry
handler: for each user other than the actor, persist a `time_tracked`
notification and send it as a directed `notification` event. -/
def notifyTimeUsers (now taskId actor : Nat) (taskTitle : String) :
    List Nat → MemStorage → MemStorage × List Effect
  | [], s => (s, [])
  | u :: rest, s =>
    if u ≠ actor then
      let r := MemStorage.createNotification s now
        { userId := u, type := "time_tracked", title := "Time Entry Added",
          message := "New time entry logged for task: " ++ taskTitle,
          relatedId := some taskId }
      let rec0 := notifyTimeUsers now taskId actor taskTitle rest r.2
      (rec0.1, Effect.persistNotification r.1 ::
               Effect.sendToUser u (notificationMsg r.1) :: rec0.2)
    else
      notifyTimeUsers now taskId actor taskTitle rest s

/-- The notify-user list of the time-entry handler: the assignees' user ids,
plus the task creator when the creator is not the actor and not already in
the list. -/
def timeNotifyUsers (assignees : List TaskAssignee) (createdById actor : Nat) : List Nat :=
  let base := assignees.map (fun a => a.userId)
  if createdById ≠ actor && !(base.contains createdById) then base ++ [createdById]
  else base

/-- The time-entry handler: persist the time entry, fetch the task and its
assignees, and if the task exists broadcast `time_entry_added` with no
exclusion, then run the notification loop over assignees plus (if distinct
from the actor) the task creator.  Responds 201 with the time entry. -/
def postTime (s : MemStorage) (now taskId actor : Nat) (body : InsertTimeEntry) :
    HandlerResult :=
  let rt := MemStorage.createTimeEntry s
    { body with taskId := taskId, userId := actor }
  match MemStorage.getTask rt.2 taskId with
  | none => { status := 201, store := rt.2, trace := [.persistTimeEntry rt.1] }
  | some task =>
    let assignees := MemStorage.getTaskAssignees rt.2 taskId
    let users := timeNotifyUsers assignees task.createdById actor
    let rn := notifyTimeUsers now taskId actor task.title users rt.2
    { status := 201, store := rn.1,
      trace := Effect.persistTimeEntry rt.1 ::
               Effect.broadcast (timeEntryAddedMsg taskId actor rt.1 task) none :: rn.2 }

/-! ## POST /api/tasks (db.ts lines 107-130) -/

structure PostTaskResult where
  status : Nat
  trace : List Effect

/-- The task-creation handler body: `try { task = await storage.createTask(...);
broadcastMessage(task_update created); res.status(201) } catch { res.status(500) }`.
The outcome of the awaited Persistence Adapter write is passed in as an
Except value: ok is the persisted task, error is a thrown storage failure,
which skips every statement after the await and lands in the catch. -/
def postTask (createResult : Except String Task) : PostTaskResult :=
  match createResult with
  | .ok task =>
    { status := 201, trace := [.persistTask task, .broadcast (taskCreatedMsg task) none] }
  | .error _ => { status := 500, trace := [] }

/-! ## PUT /api/notifications/:id/read (db.ts lines 369-377) -/

/-- The mark-as-read handler: 404 when the notification does not exist,
200 with the updated record otherwise.  It performs no dispatch calls
(no broadcast, no directed send), so its trace is empty. -/
def putNotificationRead (s : MemStorage) (id : Nat) : HandlerResult :=
  match MemStorage.markNotificationAsRead s id with
  | (none, _) => { status := 404, store := s, trace := [] }
  | (some _, s1) => { status := 200, store := s1, trace := [] }

/-! ## WebSocket handshake (db.ts wss.on('connection'), lines 385-446)

The connection handler runs synchronously up to issuing the asynchronous
session-store lookup; the lookup callback and the transport close event
are modelled as separate state transitions so their interleaving can be
analysed.  The per-connection state below carries the global wsClients
registry, the identity of this socket, whether the transport is still open,
the handler-local `let userId` variable, the send calls made on this socket,
and any close(code, reason) call the server issued. -/

/-- JS String.prototype.split with a one-character separator, on the
character list of the string (executable by kernel reduction, unlike the
core well-founded splitters). -/
def splitOnChar (c : Char) : List Char → List (List Char)
  | [] => [[]]
  | x :: xs =>
    let r := splitOnChar c xs
    if x == c then [] :: r
    else
      match r with
      | [] => [[x]]
      | y :: ys => (x :: y) :: ys

def jsSplit (s : String) (c : Char) : List String :=
  (splitOnChar c s.data).map (fun cs => String.mk cs)

def jsWhitespace (c : Char) : Bool :=
  c == ' ' || c == '\t' || c == '\n' || c == '\r'

/-- JS String.prototype.trim. -/
def jsTrim (s : String) : String :=
  String.mk (((s.data.dropWhile jsWhitespace).reverse.dropWhile jsWhitespace).reverse)

/-- JS String.prototype.slice(n) (drop the first n characters). -/
def jsDrop (s : String) (n : Nat) : String :=
  String.mk (s.data.drop n)

/-- `cookie.trim().split('=')` destructured as `[key, value]`:
the key is the first piece, the value the second (undefined when absent). -/
def parseCookiePair (cookie : String) : String × Option String :=
  let parts := jsSplit (jsTrim cookie) '='
  (parts.headD "", parts.get? 1)

/-- The reduce over `req.headers.cookie?.split(';')` building the cookie
record; a missing header yields the empty record. -/
def parseCookies : Option String → List (String × Option String)
  | none => []
  | some h => (jsSplit h ';').map parseCookiePair

/-- Property read on the built cookie record: the JS reduce overwrites
earlier duplicates, so the last occurrence of the key wins; a key stored
with an undefined value reads back as undefined. -/
def cookieGet (cookies : List (String × Option String)) (key : String) : Option String :=
  (((cookies.filter (fun p => p.1 == key)).getLast?).map Prod.snd).join

/-- JS falsiness of the looked-up sessionId: undefined or the empty string. -/
def sessionIdFalsy : Option String → Bool
  | none => true
  | some s => s == ""

/-- `sessionId.slice(2).split('.')[0]`: the session-store lookup key. -/
def sessionKeyOf (sessionId : String) : String :=
  (jsSplit (jsDrop sessionId 2) '.').headD ""

/-- The session payload the store hands to the callback:
`session.passport.user`.  passport may be absent; user = 0 models a falsy
user marker (`!session.passport.user`). -/
structure SessionData where
  passportUser : Option Nat

structure HandshakeState where
  wsClients : List WSClient
  thisSocket : Nat
  socketOpen : Bool
  userId : Option Nat
  sentOnThis : List String
  closedWith : Option (Nat × String)
  pendingKey : Option String

/-- The synchronous prefix of the connection handler: parse the cookie
header, read connect.sid; when it is falsy close with (1008, 'Unauthorized')
and stop, otherwise issue the session-store lookup for the decoded key. -/
def handshakeStart (registry : List WSClient) (sock : Nat) (cookieHeader : Option String) :
    HandshakeState :=
  let cookies := parseCookies cookieHeader
  let sessionId := cookieGet cookies "connect.sid"
  if sessionIdFalsy sessionId then
    { wsClients := registry, thisSocket := sock, socketOpen := true, userId := none,
      sentOnThis := [], closedWith := some (1008, "Unauthorized"), pendingKey := none }
  else
    { wsClients := registry, thisSocket := sock, socketOpen := true, userId := none,
      sentOnThis := [], closedWith := none,
      pendingKey := some (sessionKeyOf (sessionId.getD "")) }

/-- A session-store lookup outcome that the callback rejects:
an error, no session, no passport, or a falsy passport.user. -/
def rejectedLookup : Except Unit (Option SessionData) → Bool
  | .error _ => true
  | .ok none => true
  | .ok (some sess) =>
    match sess.passportUser with
    | none => true
    | some u => u == 0

/-- The session-store callback: on a rejected lookup close with
(1008, 'Unauthorized'); otherwise set the handler-local userId, push
`{ userId, socket: ws }` onto wsClients and call ws.send with the
`connected` acknowledgment.  The source performs no check that the socket
is still open before the push or the send. -/
def sessionCallback (st : HandshakeState) (result : Except Unit (Option SessionData)) :
    HandshakeState :=
  if rejectedLookup result then
    { st with closedWith := some (1008, "Unauthorized") }
  else
    match result with
    | .ok (some sess) =>
      match sess.passportUser with
      | some u =>
        { st with userId := some u,
                  wsClients := st.wsClients ++ [{ userId := u, socket := st.thisSocket }],
                  sentOnThis := st.sentOnThis ++ [(connectedMsg u).serialize] }
      | none => st
    | _ => st

/-- The `wsClients.findIndex(...)`-plus-`splice` removal of the close
handler: drop the first registry entry matching both this userId and this
socket. -/
def removeClient : List WSClient → Nat → Nat → List WSClient
  | [], _, _ => []
  | c :: rest, u, sock =>
    if c.userId == u && c.socket == sock then rest
    else c :: removeClient rest u sock

/-- The transport close event: the socket is no longer open; the ws.on close
handler then removes this connection from wsClients only when the
handler-local userId has already been set. -/
def closeHandler (st : HandshakeState) : HandshakeState :=
  let st1 := { st with socketOpen := false }
  match st1.userId with
  | none => st1
  | some u => { st1 with wsClients := removeClient st1.wsClients u st1.thisSocket }

/-! ## Concrete fixtures used by witnesses and counterexamples -/

def fixTask : Task :=
  { id := 1, title := "T", description := none, status := .todo, priority := .medium,
    dueDate := none, createdAt := 0, estimatedHours := none, createdById := 1 }

/-- A store holding task 1 (created by user 1) assigned to users 2 and 3. -/
def fixStoreA : MemStorage :=
  { tasks := [(1, fixTask)],
    taskAssignees := [(1, { id := 1, taskId := 1, userId := 2 }),
                      (2, { id := 2, taskId := 1, userId := 3 })],
    comments := [], timeEntries := [], notifications := [],
    taskId := 2, assigneeId := 3, commentId := 1, timeEntryId := 1, notificationId := 1 }

/-- A store holding task 1 (created by user 1) assigned to user 2 only. -/
def fixStoreB : MemStorage :=
  { tasks := [(1, fixTask)],
    taskAssignees := [(1, { id := 1, taskId := 1, userId := 2 })],
    comments := [], timeEntries := [], notifications := [],
    taskId := 2, assigneeId := 2, commentId := 1, timeEntryId := 1, notificationId := 1 }

def fixNotif : Notification :=
  { id := 1, userId := 2, title := "New Comment", message := "New comment on task: T",
    type := "comment_added", isRead := false, createdAt := 0, relatedId := some 1 }

/-- A store holding one unread notification with id 1. -/
def fixStoreN : MemStorage :=
  { tasks := [], taskAssignees := [], comments := [], timeEntries := [],
    notifications := [(1, fixNotif)],
    taskId := 1, assigneeId := 1, commentId := 1, timeEntryId := 1, notificationId := 2 }

/-- A registry: user 1 with one connection, user 2 with two connections. -/
def fixRegistry : List WSClient :=
  [{ userId := 1, socket := 10 }, { userId := 2, socket := 11 }, { userId := 2, socket := 12 }]

/-- An openness map under which socket 11 is no longer open. -/
def fixOpen : Nat → Bool := fun sock => sock != 11

/-- The property C3 claims of a handler trace, formalized: once a fan-out
broadcast has been dispatched, no derived Notification persistence may still
follow it (all Notification persists precede the broadcast). -/
def notifPersistsPrecedeBroadcasts : List Effect → Bool
  | [] => true
  | e :: rest =>
    (if e.isBroadcast then rest.all (fun x => !x.isPersistNotification) else true)
      && notifPersistsPrecedeBroadcasts rest

def Effect.isSendToUser : Effect → Bool
  | .sendToUser _ _ => true
  | _ => false

/-- The notification object the comment handler passes to createNotification
for one assignee (db.ts lines 263-269), as completed by
MemStorage.createNotification with a fresh id and timestamp. -/
def commentNotifRecord (id now taskId recipient : Nat) (taskTitle : String) : Notification :=
  { id := id, userId := recipient, title := "New Comment",
    message := "New comment on task: " ++ taskTitle, type := "comment_added",
    isRead := false, createdAt := now, relatedId := some taskId }

/-- The notification object the time-entry handler passes to
createNotification for one notified user (db.ts lines 334-340), as completed
by MemStorage.createNotification with a fresh id and timestamp. -/
def timeNotifRecord (id now taskId recipient : Nat) (taskTitle : String) : Notification :=
  { id := id, userId := recipient, title := "Time Entry Added",
    message := "New time entry logged for task: " ++ taskTitle, type := "time_tracked",
    isRead := false, createdAt := now, relatedId := some taskId }

/-- A handshake state with pending lookup used to witness callback claims. -/
def fixHandshakeSt : HandshakeState :=
  { wsClients := fixRegistry, thisSocket := 5, socketOpen := true, userId := none,
    sentOnThis := [], closedWith := none, pendingKey := some "abc" }

/-! ## Helper lemmas: association-list Maps -/

theorem mapGet_mapSet_self {α : Type} (l : List (Nat × α)) (k : Nat) (v : α) :
    mapGet (mapSet l k v) k = some v := by
  induction l with
  | nil => simp [mapGet, mapSet]
  | cons p rest ih =>
    obtain ⟨k0, v0⟩ := p
    by_cases h : k0 = k
    · simp [mapGet, mapSet, h]
    · simp [mapGet, mapSet, h, ih]

theorem mapGet_mapSet_ne {α : Type} (l : List (Nat × α)) (k : Nat) (v : α) (j : Nat)
    (h : j ≠ k) : mapGet (mapSet l k v) j = mapGet l j := by
  induction l with
  | nil =>
    simp only [mapSet, mapGet, beq_iff_eq]
    rw [if_neg (Ne.symm h)]
  | cons p rest ih =>
    obtain ⟨k0, v0⟩ := p
    by_cases h0 : k0 = k
    · subst h0
      simp only [mapSet, beq_self_eq_true, if_pos, mapGet, beq_iff_eq]
      rw [if_neg (Ne.symm h), if_neg (Ne.symm h)]
    · simp only [mapSet, beq_iff_eq, if_neg h0, mapGet]
      by_cases h1 : k0 = j
      · simp [h1]
      · simp [h1, ih]

theorem mapSet_mapSet_same {α : Type} (l : List (Nat × α)) (k : Nat) (v w : α) :
    mapSet (mapSet l k v) k w = mapSet l k w := by
  induction l with
  | nil => simp [mapSet]
  | cons p rest ih =>
    obtain ⟨k0, v0⟩ := p
    by_cases h : k0 = k
    · simp [mapSet, h]
    · simp [mapSet, h, ih]

theorem mapSet_fresh {α : Type} (l : List (Nat × α)) (k : Nat) (v : α)
    (h : ∀ p ∈ l, p.1 ≠ k) : mapSet l k v = l ++ [(k, v)] := by
  induction l with
  | nil => rfl
  | cons p rest ih =>
    obtain ⟨k0, v0⟩ := p
    have hk0 : k0 ≠ k := h (k0, v0) (List.mem_cons_self _ _)
    simp only [mapSet, beq_iff_eq, if_neg hk0, List.cons_append, List.cons.injEq, true_and]
    exact ih (fun q hq => h q (List.mem_cons_of_mem _ hq))

theorem length_mapSet_present {α : Type} (l : List (Nat × α)) (k : Nat) (v w : α)
    (h : mapGet l k = some w) : (mapSet l k v).length = l.length := by
  induction l with
  | nil => simp [mapGet] at h
  | cons p rest ih =>
    obtain ⟨k0, v0⟩ := p
    by_cases h0 : k0 = k
    · simp [mapSet, h0]
    · simp only [mapGet, beq_iff_eq, if_neg h0] at h
      simp [mapSet, h0, ih h]

theorem mapGet_some_mem {α : Type} (l : List (Nat × α)) (k : Nat) (v : α)
    (h : mapGet l k = some v) : (k, v) ∈ l := by
  induction l with
  | nil => simp [mapGet] at h
  | cons p rest ih =>
    obtain ⟨k0, v0⟩ := p
    by_cases h0 : k0 = k
    · subst h0
      simp [mapGet] at h
      simp [List.mem_cons, h]
    · simp only [mapGet, beq_iff_eq, if_neg h0] at h
      exact List.mem_cons_of_mem _ (ih h)

theorem mem_mapSet {α : Type} (l : List (Nat × α)) (k : Nat) (v : α) (p : Nat × α)
    (hp : p ∈ mapSet l k v) : p ∈ l ∨ p = (k, v) := by
  induction l with
  | nil => simp [mapSet] at hp; exact Or.inr hp
  | cons q rest ih =>
    obtain ⟨k0, v0⟩ := q
    by_cases h0 : k0 = k
    · simp only [mapSet, beq_iff_eq, if_pos h0] at hp
      rcases List.mem_cons.mp hp with h | h
      · exact Or.inr h
      · exact Or.inl (List.mem_cons_of_mem _ h)
    · simp only [mapSet, beq_iff_eq, if_neg h0] at hp
      rcases List.mem_cons.mp hp with h | h
      · exact Or.inl (by simp [h])
      · rcases ih h with h1 | h1
        · exact Or.inl (List.mem_cons_of_mem _ h1)
        · exact Or.inr h1

/-! ## Helper lemmas: fan-out dispatch -/

theorem broadcastSends_eq_filter (isOpen : Nat → Bool) (ex : Option Nat) (str : String)
    (clients : List WSClient) :
    broadcastSends isOpen ex str clients
      = (clients.filter (fun cl => isOpen cl.socket && excludeCheck ex cl.userId)).map
          (fun cl => (cl.socket, str)) := by
  induction clients with
  | nil => rfl
  | cons cl rest ih =>
    by_cases h : (isOpen cl.socket && excludeCheck ex cl.userId) = true
    · simp [broadcastSends, List.filter_cons, h, ih]
    · simp [broadcastSends, List.filter_cons, h, ih]

theorem openSends_eq_filter (isOpen : Nat → Bool) (str : String) (clients : List WSClient) :
    openSends isOpen str clients
      = (clients.filter (fun cl => isOpen cl.socket)).map (fun cl => (cl.socket, str)) := by
  induction clients with
  | nil => rfl
  | cons cl rest ih =>
    by_cases h : isOpen cl.socket = true
    · simp [openSends, List.filter_cons, h, ih]
    · simp [openSends, List.filter_cons, h, ih]

theorem excludeCheck_some_ne_zero (u : Nat) (hu : u ≠ 0) (w : Nat) :
    excludeCheck (some u) w = (w != u) := by
  simp [excludeCheck, hu]

theorem mem_broadcastMessage_some (clients : List WSClient) (isOpen : Nat → Bool)
    (msg : WSMessage) (u : Nat) (hu : u ≠ 0) (sock : Nat) (p : String) :
    (sock, p) ∈ broadcastMessage clients isOpen msg (some u)
      ↔ p = msg.serialize
        ∧ ∃ cl ∈ clients, cl.socket = sock ∧ isOpen cl.socket = true ∧ cl.userId ≠ u := by
  simp only [broadcastMessage, broadcastSends_eq_filter, List.mem_map, List.mem_filter,
    Prod.mk.injEq]
  constructor
  · rintro ⟨cl, ⟨hmem, hcond⟩, hs, hp⟩
    rw [excludeCheck_some_ne_zero u hu] at hcond
    simp only [Bool.and_eq_true, bne_iff_ne] at hcond
    exact ⟨hp.symm, cl, hmem, hs, hcond.1, hcond.2⟩
  · rintro ⟨hp, cl, hmem, hs, hopen, hne⟩
    refine ⟨cl, ⟨hmem, ?_⟩, hs, hp.symm⟩
    rw [excludeCheck_some_ne_zero u hu]
    simp [hopen, hne]

theorem mem_broadcastMessage_none (clients : List WSClient) (isOpen : Nat → Bool)
    (msg : WSMessage) (sock : Nat) (p : String) :
    (sock, p) ∈ broadcastMessage clients isOpen msg none
      ↔ p = msg.serialize ∧ ∃ cl ∈ clients, cl.socket = sock ∧ isOpen cl.socket = true := by
  simp only [broadcastMessage, broadcastSends_eq_filter, List.mem_map, List.mem_filter,
    Prod.mk.injEq, excludeCheck, Bool.and_true]
  constructor
  · rintro ⟨cl, ⟨hmem, hcond⟩, hs, hp⟩
    exact ⟨hp.symm, cl, hmem, hs, hcond⟩
  · rintro ⟨hp, cl, hmem, hs, hopen⟩
    exact ⟨cl, ⟨hmem, hopen⟩, hs, hp.symm⟩

theorem mem_sendMessageToUser (clients : List WSClient) (isOpen : Nat → Bool)
    (u : Nat) (msg : WSMessage) (sock : Nat) (p : String) :
    (sock, p) ∈ sendMessageToUser clients isOpen u msg
      ↔ p = msg.serialize
        ∧ ∃ cl ∈ clients, cl.userId = u ∧ cl.socket = sock ∧ isOpen cl.socket = true := by
  simp only [sendMessageToUser, openSends_eq_filter, List.mem_map, List.mem_filter,
    Prod.mk.injEq, beq_iff_eq]
  constructor
  · rintro ⟨cl, ⟨⟨hmem, huid⟩, hopen⟩, hs, hp⟩
    exact ⟨hp.symm, cl, hmem, huid, hs, hopen⟩
  · rintro ⟨hp, cl, hmem, huid, hs, hopen⟩
    exact ⟨cl, ⟨⟨hmem, huid⟩, hopen⟩, hs, hp.symm⟩

/-! ## Claim theorems -/

/-- C4: when the Persistence Adapter write of the task-creation handler
throws (the awaited storage.createTask call fails), the handler dispatches
zero events — no broadcast and no directed send, neither before nor after
the failed commit — and answers the request with status 500. -/
theorem failed_task_create_dispatches_no_events (msg : String) :
    (postTask (Except.error msg)).status = 500
  ∧ (postTask (Except.error msg)).trace = []
  ∧ (postTask (Except.error msg)).trace.filter Effect.isDispatch = [] :=
  ⟨rfl, rfl, rfl⟩

/-- C10: for every input, MemStorage.createNotification returns a record
whose isRead is false regardless of any isRead value carried by the caller's
object, whose relatedId is the caller's relatedId (null when absent), whose
id is the freshly assigned counter value, and that record is exactly what is
stored under that id; the record DatabaseStorage.createNotification inserts
has the same forced fields. -/
theorem createNotification_unread_and_stored (s : MemStorage) (now : Nat)
    (ins : InsertNotification) :
    (MemStorage.createNotification s now ins).1.isRead = false
  ∧ (MemStorage.createNotification s now ins).1.relatedId = ins.relatedId
  ∧ (MemStorage.createNotification s now ins).1.id = s.notificationId
  ∧ mapGet (MemStorage.createNotification s now ins).2.notifications s.notificationId
      = some (MemStorage.createNotification s now ins).1
  ∧ (∀ id0, (DatabaseStorage.createNotificationDoc id0 now ins).isRead = false
      ∧ (DatabaseStorage.createNotificationDoc id0 now ins).relatedId = ins.relatedId) :=
  ⟨rfl, rfl, rfl, mapGet_mapSet_self _ _ _, fun _ => ⟨rfl, rfl⟩⟩

/-- C8: under the registry invariant that every registered connection has a
nonzero user id (registration only happens under the handshake's truthiness
guard on userId), broadcastMessage serializes the message once and delivers
that identical string to every open registered connection except all of the
excluded user's connections; with no exclusion it delivers to every open
registered connection. -/
theorem broadcast_serializes_once_and_excludes_user
    (clients : List WSClient) (isOpen : Nat → Bool) (msg : WSMessage)
    (hvalid : ∀ cl ∈ clients, cl.userId ≠ 0) :
    (∀ u, broadcastMessage clients isOpen msg (some u)
        = (clients.filter (fun cl => isOpen cl.socket && cl.userId != u)).map
            (fun cl => (cl.socket, msg.serialize)))
  ∧ broadcastMessage clients isOpen msg none
      = (clients.filter (fun cl => isOpen cl.socket)).map
          (fun cl => (cl.socket, msg.serialize))
  ∧ (∀ exu, ∀ d ∈ broadcastMessage clients isOpen msg exu, d.2 = msg.serialize) := by
  refine ⟨?_, ?_, ?_⟩
  · intro u
    rw [broadcastMessage, broadcastSends_eq_filter]
    congr 1
    apply List.filter_congr
    intro cl hmem
    by_cases hu : u = 0
    · subst hu
      simp [excludeCheck, bne_iff_ne, hvalid cl hmem]
    · rw [excludeCheck_some_ne_zero u hu]
  · rw [broadcastMessage, broadcastSends_eq_filter]
    congr 1
    apply List.filter_congr
    intro cl _
    simp [excludeCheck]
  · intro exu d hd
    rw [broadcastMessage, broadcastSends_eq_filter] at hd
    rcases List.mem_map.mp hd with ⟨cl, _, hcl⟩
    rw [← hcl]

/-- Witness for C8 at a concrete registry (three connections over two users,
socket 11 not open), exclusion of user 2: only user 1's open connection
receives the single serialized message. -/
theorem broadcast_serializes_once_and_excludes_user_witness :
    (∀ cl ∈ fixRegistry, cl.userId ≠ 0)
  ∧ broadcastMessage fixRegistry fixOpen (connectedMsg 9) (some 2)
      = (fixRegistry.filter (fun cl => fixOpen cl.socket && cl.userId != 2)).map
          (fun cl => (cl.socket, (connectedMsg 9).serialize)) :=
  ⟨by decide,
   (broadcast_serializes_once_and_excludes_user fixRegistry fixOpen (connectedMsg 9)
     (by decide)).1 2⟩

/-- C5: every handshake rejection — session cookie missing or falsy at the
synchronous stage, and session-store error, missing session, or session
lacking an authenticated-user marker at the callback stage — closes the
transport with the one policy-defined code (1008, 'Unauthorized'), leaves
the wsClients registry untouched, and sends nothing. -/
theorem handshake_rejections_uniform_close_code
    (registry : List WSClient) (sock : Nat) (header : Option String)
    (st : HandshakeState) (result : Except Unit (Option SessionData))
    (hnoSid : sessionIdFalsy (cookieGet (parseCookies header) "connect.sid") = true)
    (hrej : rejectedLookup result = true) :
    ((handshakeStart registry sock header).closedWith = some (1008, "Unauthorized")
      ∧ (handshakeStart registry sock header).wsClients = registry
      ∧ (handshakeStart registry sock header).pendingKey = none
      ∧ (handshakeStart registry sock header).sentOnThis = [])
  ∧ ((sessionCallback st result).closedWith = some (1008, "Unauthorized")
      ∧ (sessionCallback st result).wsClients = st.wsClients
      ∧ (sessionCallback st result).sentOnThis = st.sentOnThis) := by
  constructor
  · simp [handshakeStart, hnoSid]
  · simp [sessionCallback, hrej]

/-- Witness for C5: a handshake with no cookie header at all, and a callback
receiving an empty session-store result, both rejected identically. -/
theorem handshake_rejections_uniform_close_code_witness :
    (sessionIdFalsy (cookieGet (parseCookies none) "connect.sid") = true
      ∧ rejectedLookup (Except.ok none) = true)
  ∧ (handshakeStart fixRegistry 5 none).closedWith = some (1008, "Unauthorized")
  ∧ (handshakeStart fixRegistry 5 none).wsClients = fixRegistry
  ∧ (sessionCallback fixHandshakeSt (Except.ok none)).closedWith
      = some (1008, "Unauthorized")
  ∧ (sessionCallback fixHandshakeSt (Except.ok none)).wsClients
      = fixHandshakeSt.wsClients := by
  have h := handshake_rejections_uniform_close_code fixRegistry 5 none fixHandshakeSt
    (Except.ok none) (by decide) (by decide)
  exact ⟨⟨by decide, by decide⟩, h.1.1, h.1.2.1, h.2.1, h.2.2.1⟩

/-- C6: a handshake whose cookie is present and whose session-store lookup
returns a session carrying an authenticated (nonzero) user id u registers
exactly one new connection under u, visible in the registry and in
connectionsFor u, and sends exactly one `connected` event to this socket
alone whose payload.userId equals u; no close is issued. -/
theorem valid_handshake_registers_once_and_acks
    (registry : List WSClient) (sock : Nat) (header : Option String) (u : Nat)
    (hsid : sessionIdFalsy (cookieGet (parseCookies header) "connect.sid") = false)
    (hu : u ≠ 0) :
    (handshakeStart registry sock header).closedWith = none
  ∧ (handshakeStart registry sock header).wsClients = registry
  ∧ (sessionCallback (handshakeStart registry sock header)
       (Except.ok (some { passportUser := some u }))).wsClients
      = registry ++ [{ userId := u, socket := sock }]
  ∧ connectionsFor (sessionCallback (handshakeStart registry sock header)
       (Except.ok (some { passportUser := some u }))).wsClients u
      = connectionsFor registry u ++ [{ userId := u, socket := sock }]
  ∧ (sessionCallback (handshakeStart registry sock header)
       (Except.ok (some { passportUser := some u }))).sentOnThis
      = [(connectedMsg u).serialize]
  ∧ (connectedMsg u).payload.getField "userId" = some (Json.num u)
  ∧ (sessionCallback (handshakeStart registry sock header)
       (Except.ok (some { passportUser := some u }))).closedWith = none := by
  have hrej : rejectedLookup
      (Except.ok (some ({ passportUser := some u } : SessionData))) = false := by
    simp [rejectedLookup, hu]
  have hstart : handshakeStart registry sock header
      = { wsClients := registry, thisSocket := sock, socketOpen := true, userId := none,
          sentOnThis := [], closedWith := none,
          pendingKey := some (sessionKeyOf
            ((cookieGet (parseCookies header) "connect.sid").getD "")) } := by
    simp only [handshakeStart, hsid, Bool.false_eq_true, if_false]
  rw [hstart]
  simp only [sessionCallback, hrej, Bool.false_eq_true, if_false]
  simp [connectionsFor, List.filter_append, connectedMsg, Json.getField]

/-- Witness for C6: a concrete cookie header resolving to user 7 over the
fixture registry. -/
theorem valid_handshake_registers_once_and_acks_witness :
    (sessionIdFalsy (cookieGet (parseCookies (some "connect.sid=s:abc.def"))
        "connect.sid") = false
      ∧ (7 : Nat) ≠ 0)
  ∧ (sessionCallback (handshakeStart fixRegistry 9 (some "connect.sid=s:abc.def"))
       (Except.ok (some { passportUser := some 7 }))).wsClients
      = fixRegistry ++ [{ userId := 7, socket := 9 }]
  ∧ (sessionCallback (handshakeStart fixRegistry 9 (some "connect.sid=s:abc.def"))
       (Except.ok (some { passportUser := some 7 }))).sentOnThis
      = [(connectedMsg 7).serialize] := by
  have h := valid_handshake_registers_once_and_acks fixRegistry 9
    (some "connect.sid=s:abc.def") 7 (by decide) (by decide)
  exact ⟨⟨by decide, by decide⟩, h.2.2.1, h.2.2.2.2.1⟩

/-- C7 (contradicting the spec's handshake guard requirement): when the
client disconnects before the session-store lookup resolves, the close
handler runs first with the handler-local userId still unset and removes
nothing; the callback then registers the connection and attempts the
`connected` send with no check that the socket is still open, so a closed
connection remains registered in wsClients (and no later close event will
remove it). -/
theorem disconnect_before_lookup_leaves_closed_connection_registered :
    (closeHandler (handshakeStart [] 5 (some "connect.sid=s:abc.def"))).wsClients = []
  ∧ (sessionCallback (closeHandler (handshakeStart [] 5 (some "connect.sid=s:abc.def")))
        (Except.ok (some { passportUser := some 7 }))).socketOpen = false
  ∧ (sessionCallback (closeHandler (handshakeStart [] 5 (some "connect.sid=s:abc.def")))
        (Except.ok (some { passportUser := some 7 }))).wsClients
      = [{ userId := 7, socket := 5 }]
  ∧ (sessionCallback (closeHandler (handshakeStart [] 5 (some "connect.sid=s:abc.def")))
        (Except.ok (some { passportUser := some 7 }))).sentOnThis
      = [(connectedMsg 7).serialize] := by
  refine ⟨?_, ?_, ?_, ?_⟩ <;> rfl

/-! ## Helper lemmas: handler computations -/

theorem postComment_eq (s : MemStorage) (now taskId actor : Nat) (content : String)
    (task : Task) (hTask : s.getTask taskId = some task) :
    postComment s now taskId actor content
      = { status := 201,
          store := (notifyCommentAssignees now taskId actor task.title
            (s.getTaskAssignees taskId)
            (MemStorage.createComment s now
              { taskId := taskId, userId := actor, content := content }).2).1,
          trace := Effect.persistComment (MemStorage.createComment s now
              { taskId := taskId, userId := actor, content := content }).1
            :: Effect.broadcast (commentAddedMsg (MemStorage.createComment s now
              { taskId := taskId, userId := actor, content := content }).1 task) (some actor)
            :: (notifyCommentAssignees now taskId actor task.title
                (s.getTaskAssignees taskId)
                (MemStorage.createComment s now
                  { taskId := taskId, userId := actor, content := content }).2).2 } := by
  have hTask2 : mapGet s.tasks taskId = some task := hTask
  simp only [postComment, MemStorage.createComment, MemStorage.getTask,
    MemStorage.getTaskAssignees, hTask2]

theorem postTime_eq (s : MemStorage) (now taskId actor : Nat) (body : InsertTimeEntry)
    (task : Task) (hTask : s.getTask taskId = some task) :
    postTime s now taskId actor body
      = { status := 201,
          store := (notifyTimeUsers now taskId actor task.title
            (timeNotifyUsers (s.getTaskAssignees taskId) task.createdById actor)
            (MemStorage.createTimeEntry s { body with taskId := taskId, userId := actor }).2).1,
          trace := Effect.persistTimeEntry
              (MemStorage.createTimeEntry s { body with taskId := taskId, userId := actor }).1
            :: Effect.broadcast (timeEntryAddedMsg taskId actor
              (MemStorage.createTimeEntry s
                { body with taskId := taskId, userId := actor }).1 task) none
            :: (notifyTimeUsers now taskId actor task.title
                (timeNotifyUsers (s.getTaskAssignees taskId) task.createdById actor)
                (MemStorage.createTimeEntry s
                  { body with taskId := taskId, userId := actor }).2).2 } := by
  have hTask2 : mapGet s.tasks taskId = some task := hTask
  simp only [postTime, MemStorage.createTimeEntry, MemStorage.getTask,
    MemStorage.getTaskAssignees, hTask2]

theorem notifyCommentAssignees_pair (now taskId actor : Nat) (title : String)
    (a1 a2 : TaskAssignee) (s : MemStorage)
    (h1 : a1.userId ≠ actor) (h2 : a2.userId ≠ actor) :
    notifyCommentAssignees now taskId actor title [a1, a2] s
      = ({ s with
            notifications := mapSet
              (mapSet s.notifications s.notificationId
                (commentNotifRecord s.notificationId now taskId a1.userId title))
              (s.notificationId + 1)
              (commentNotifRecord (s.notificationId + 1) now taskId a2.userId title),
            notificationId := s.notificationId + 1 + 1 },
         [Effect.persistNotification
            (commentNotifRecord s.notificationId now taskId a1.userId title),
          Effect.sendToUser a1.userId
            (notificationMsg (commentNotifRecord s.notificationId now taskId a1.userId title)),
          Effect.persistNotification
            (commentNotifRecord (s.notificationId + 1) now taskId a2.userId title),
          Effect.sendToUser a2.userId
            (notificationMsg
              (commentNotifRecord (s.notificationId + 1) now taskId a2.userId title))]) := by
  simp [notifyCommentAssignees, MemStorage.createNotification, commentNotifRecord, h1, h2]

theorem notifyTimeUsers_single (now taskId actor : Nat) (title : String) (b : Nat)
    (s : MemStorage) (hb : b ≠ actor) :
    notifyTimeUsers now taskId actor title [b] s
      = ({ s with
            notifications := mapSet s.notifications s.notificationId
                               (timeNotifRecord s.notificationId now taskId b title),
            notificationId := s.notificationId + 1 },
         [Effect.persistNotification (timeNotifRecord s.notificationId now taskId b title),
          Effect.sendToUser b
            (notificationMsg (timeNotifRecord s.notificationId now taskId b title))]) := by
  simp [notifyTimeUsers, MemStorage.createNotification, timeNotifRecord, hb]

theorem notifyCommentAssignees_effects (now taskId actor : Nat) (title : String) :
    ∀ (l : List TaskAssignee) (s : MemStorage),
      ∀ e ∈ (notifyCommentAssignees now taskId actor title l s).2,
        e.isBroadcast = false ∧ (e.isPersistNotification = true ∨ e.isSendToUser = true) := by
  intro l
  induction l with
  | nil =>
    intro s e he
    simp [notifyCommentAssignees] at he
  | cons x rest ih =>
    intro s e he
    by_cases hx : x.userId ≠ actor
    · simp only [notifyCommentAssignees, if_pos hx] at he
      rcases List.mem_cons.mp he with rfl | he2
      · exact ⟨rfl, Or.inl rfl⟩
      rcases List.mem_cons.mp he2 with rfl | he3
      · exact ⟨rfl, Or.inr rfl⟩
      · exact ih _ e he3
    · simp only [notifyCommentAssignees, if_neg hx] at he
      exact ih _ e he

theorem notifyTimeUsers_effects (now taskId actor : Nat) (title : String) :
    ∀ (l : List Nat) (s : MemStorage),
      ∀ e ∈ (notifyTimeUsers now taskId actor title l s).2,
        e.isBroadcast = false ∧ (e.isPersistNotification = true ∨ e.isSendToUser = true) := by
  intro l
  induction l with
  | nil =>
    intro s e he
    simp [notifyTimeUsers] at he
  | cons x rest ih =>
    intro s e he
    by_cases hx : x ≠ actor
    · simp only [notifyTimeUsers, if_pos hx] at he
      rcases List.mem_cons.mp he with rfl | he2
      · exact ⟨rfl, Or.inl rfl⟩
      rcases List.mem_cons.mp he2 with rfl | he3
      · exact ⟨rfl, Or.inr rfl⟩
      · exact ih _ e he3
    · simp only [notifyTimeUsers, if_neg hx] at he
      exact ih _ e he

/-- C1: when actor a (a nonzero authenticated id) comments on an existing
task whose assignee records are exactly for users b and c, all distinct from
a: exactly two Notification records are appended (recipients b and c, none
for a), the trace holds exactly one comment_added broadcast excluding a and
one directed notification send each to b and c, the broadcast is delivered
to every open registered connection except all of a's connections, and the
notification events are delivered to every open connection of b and of c. -/
theorem comment_fanout_notifies_assignees_not_actor
    (s : MemStorage) (now taskId a b c : Nat) (content : String) (task : Task)
    (a1 a2 : TaskAssignee)
    (hWF : s.WFNotifications)
    (hTask : s.getTask taskId = some task)
    (hAss : s.getTaskAssignees taskId = [a1, a2])
    (hb : a1.userId = b) (hc : a2.userId = c)
    (hba : b ≠ a) (hca : c ≠ a) (hbc : b ≠ c) (ha0 : a ≠ 0) :
    (postComment s now taskId a content).store.notifications
      = s.notifications
        ++ [(s.notificationId, commentNotifRecord s.notificationId now taskId b task.title),
            (s.notificationId + 1,
              commentNotifRecord (s.notificationId + 1) now taskId c task.title)]
  ∧ (postComment s now taskId a content).trace
      = [Effect.persistComment (MemStorage.createComment s now
           { taskId := taskId, userId := a, content := content }).1,
         Effect.broadcast (commentAddedMsg (MemStorage.createComment s now
           { taskId := taskId, userId := a, content := content }).1 task) (some a),
         Effect.persistNotification
           (commentNotifRecord s.notificationId now taskId b task.title),
         Effect.sendToUser b
           (notificationMsg (commentNotifRecord s.notificationId now taskId b task.title)),
         Effect.persistNotification
           (commentNotifRecord (s.notificationId + 1) now taskId c task.title),
         Effect.sendToUser c
           (notificationMsg (commentNotifRecord (s.notificationId + 1) now taskId c task.title))]
  ∧ (∀ clients isOpen sock p,
       ((sock, p) ∈ broadcastMessage clients isOpen
          (commentAddedMsg (MemStorage.createComment s now
            { taskId := taskId, userId := a, content := content }).1 task) (some a))
        ↔ p = (commentAddedMsg (MemStorage.createComment s now
            { taskId := taskId, userId := a, content := content }).1 task).serialize
          ∧ ∃ cl ∈ clients, cl.socket = sock ∧ isOpen cl.socket = true ∧ cl.userId ≠ a)
  ∧ (∀ clients isOpen sock p,
       ((sock, p) ∈ sendMessageToUser clients isOpen b
          (notificationMsg (commentNotifRecord s.notificationId now taskId b task.title)))
        ↔ p = (notificationMsg
            (commentNotifRecord s.notificationId now taskId b task.title)).serialize
          ∧ ∃ cl ∈ clients, cl.userId = b ∧ cl.socket = sock ∧ isOpen cl.socket = true)
  ∧ (∀ clients isOpen sock p,
       ((sock, p) ∈ sendMessageToUser clients isOpen c
          (notificationMsg (commentNotifRecord (s.notificationId + 1) now taskId c task.title)))
        ↔ p = (notificationMsg
            (commentNotifRecord (s.notificationId + 1) now taskId c task.title)).serialize
          ∧ ∃ cl ∈ clients, cl.userId = c ∧ cl.socket = sock ∧ isOpen cl.socket = true) := by
  subst hb hc
  have hpc := postComment_eq s now taskId a content task hTask
  rw [hAss] at hpc
  have hnp := notifyCommentAssignees_pair now taskId a task.title a1 a2
    (MemStorage.createComment s now { taskId := taskId, userId := a, content := content }).2
    hba hca
  simp only [MemStorage.createComment] at hnp hpc
  refine ⟨?_, ?_,
    fun clients isOpen sock p => mem_broadcastMessage_some clients isOpen _ a ha0 sock p,
    fun clients isOpen sock p => mem_sendMessageToUser clients isOpen _ _ sock p,
    fun clients isOpen sock p => mem_sendMessageToUser clients isOpen _ _ sock p⟩
  · rw [hpc, hnp]
    have hfresh1 : ∀ q ∈ s.notifications, q.1 ≠ s.notificationId :=
      fun q hq => Nat.ne_of_lt (hWF q hq)
    have e1 := mapSet_fresh s.notifications s.notificationId
      (commentNotifRecord s.notificationId now taskId a1.userId task.title) hfresh1
    have hfresh2 : ∀ q ∈ s.notifications ++
        [(s.notificationId,
          commentNotifRecord s.notificationId now taskId a1.userId task.title)],
        q.1 ≠ s.notificationId + 1 := by
      intro q hq
      rcases List.mem_append.mp hq with h | h
      · exact Nat.ne_of_lt (Nat.lt_succ_of_lt (hWF q h))
      · rcases List.mem_singleton.mp h with rfl
        exact Nat.ne_of_lt (Nat.lt_succ_self _)
    simp only [e1]
    have e2 := mapSet_fresh
      (s.notifications ++
        [(s.notificationId,
          commentNotifRecord s.notificationId now taskId a1.userId task.title)])
      (s.notificationId + 1)
      (commentNotifRecord (s.notificationId + 1) now taskId a2.userId task.title) hfresh2
    simp only [e2, List.append_assoc, List.singleton_append, List.cons_append,
      List.nil_append]
  · rw [hpc, hnp]
    simp [MemStorage.createComment]

/-- Witness for C1: actor 4 comments on task 1 of the fixture store, which
is assigned to users 2 and 3. -/
theorem comment_fanout_notifies_assignees_not_actor_witness :
    (fixStoreA.WFNotifications
      ∧ fixStoreA.getTask 1 = some fixTask
      ∧ fixStoreA.getTaskAssignees 1
          = [{ id := 1, taskId := 1, userId := 2 }, { id := 2, taskId := 1, userId := 3 }])
  ∧ (postComment fixStoreA 0 1 4 "hi").store.notifications
      = fixStoreA.notifications
        ++ [(fixStoreA.notificationId,
             commentNotifRecord fixStoreA.notificationId 0 1 2 fixTask.title),
            (fixStoreA.notificationId + 1,
             commentNotifRecord (fixStoreA.notificationId + 1) 0 1 3 fixTask.title)] := by
  have hwf : fixStoreA.WFNotifications := by
    intro p hp
    simp [fixStoreA] at hp
  have h := comment_fanout_notifies_assignees_not_actor fixStoreA 0 1 4 2 3 "hi" fixTask
    { id := 1, taskId := 1, userId := 2 } { id := 2, taskId := 1, userId := 3 }
    hwf rfl rfl rfl rfl (by decide) (by decide) (by decide) (by decide)
  exact ⟨⟨hwf, rfl, rfl⟩, h.1⟩

/-- C2: when actor a posts a time entry on an existing task created by a and
assigned to exactly one user b distinct from a: exactly one Notification
record is appended (recipient b, none for a although a is the creator), the
trace holds exactly one time_entry_added broadcast with no exclusion and one
directed notification send to b, the broadcast is delivered to every open
registered connection with no user excluded, and the notification event is
delivered to every open connection of b. -/
theorem time_entry_fanout_single_assignee_creator_actor
    (s : MemStorage) (now taskId a b : Nat) (body : InsertTimeEntry) (task : Task)
    (a1 : TaskAssignee)
    (hWF : s.WFNotifications)
    (hTask : s.getTask taskId = some task)
    (hAss : s.getTaskAssignees taskId = [a1])
    (hb : a1.userId = b)
    (hcreated : task.createdById = a)
    (hba : b ≠ a) :
    (postTime s now taskId a body).store.notifications
      = s.notifications
        ++ [(s.notificationId, timeNotifRecord s.notificationId now taskId b task.title)]
  ∧ (∀ p ∈ (postTime s now taskId a body).store.notifications,
       p.2.userId = a → p ∈ s.notifications)
  ∧ (postTime s now taskId a body).trace
      = [Effect.persistTimeEntry
           (MemStorage.createTimeEntry s { body with taskId := taskId, userId := a }).1,
         Effect.broadcast (timeEntryAddedMsg taskId a
           (MemStorage.createTimeEntry s { body with taskId := taskId, userId := a }).1 task)
           none,
         Effect.persistNotification (timeNotifRecord s.notificationId now taskId b task.title),
         Effect.sendToUser b
           (notificationMsg (timeNotifRecord s.notificationId now taskId b task.title))]
  ∧ (∀ clients isOpen sock p,
       ((sock, p) ∈ broadcastMessage clients isOpen (timeEntryAddedMsg taskId a
          (MemStorage.createTimeEntry s { body with taskId := taskId, userId := a }).1 task)
          none)
        ↔ p = (timeEntryAddedMsg taskId a
            (MemStorage.createTimeEntry s
              { body with taskId := taskId, userId := a }).1 task).serialize
          ∧ ∃ cl ∈ clients, cl.socket = sock ∧ isOpen cl.socket = true)
  ∧ (∀ clients isOpen sock p,
       ((sock, p) ∈ sendMessageToUser clients isOpen b
          (notificationMsg (timeNotifRecord s.notificationId now taskId b task.title)))
        ↔ p = (notificationMsg
            (timeNotifRecord s.notificationId now taskId b task.title)).serialize
          ∧ ∃ cl ∈ clients, cl.userId = b ∧ cl.socket = sock ∧ isOpen cl.socket = true) := by
  subst hb
  have hpt := postTime_eq s now taskId a body task hTask
  rw [hAss] at hpt
  have htnu : timeNotifyUsers [a1] task.createdById a = [a1.userId] := by
    simp [timeNotifyUsers, hcreated]
  rw [htnu] at hpt
  have hns := notifyTimeUsers_single now taskId a task.title a1.userId
    (MemStorage.createTimeEntry s { body with taskId := taskId, userId := a }).2 hba
  simp only [MemStorage.createTimeEntry] at hns hpt
  have hfresh1 : ∀ q ∈ s.notifications, q.1 ≠ s.notificationId :=
    fun q hq => Nat.ne_of_lt (hWF q hq)
  have e1 := mapSet_fresh s.notifications s.notificationId
    (timeNotifRecord s.notificationId now taskId a1.userId task.title) hfresh1
  have hstore : (postTime s now taskId a body).store.notifications
      = s.notifications
        ++ [(s.notificationId,
             timeNotifRecord s.notificationId now taskId a1.userId task.title)] := by
    rw [hpt, hns]
    simp only [e1]
  refine ⟨hstore, ?_, ?_,
    fun clients isOpen sock p => mem_broadcastMessage_none clients isOpen _ sock p,
    fun clients isOpen sock p => mem_sendMessageToUser clients isOpen _ _ sock p⟩
  · intro p hp hpa
    rw [hstore] at hp
    rcases List.mem_append.mp hp with h | h
    · exact h
    · rcases List.mem_singleton.mp h with rfl
      exact absurd hpa hba
  · rw [hpt, hns]
    simp [MemStorage.createTimeEntry]

/-- Witness for C2: actor 1 (who created task 1) logs a time entry on it;
the single assignee is user 2. -/
theorem time_entry_fanout_single_assignee_creator_actor_witness :
    (fixStoreB.WFNotifications
      ∧ fixStoreB.getTask 1 = some fixTask
      ∧ fixStoreB.getTaskAssignees 1 = [{ id := 1, taskId := 1, userId := 2 }]
      ∧ fixTask.createdById = 1)
  ∧ (postTime fixStoreB 0 1 1 { taskId := 0, userId := 0, startTime := 5 }).store.notifications
      = fixStoreB.notifications
        ++ [(fixStoreB.notificationId,
             timeNotifRecord fixStoreB.notificationId 0 1 2 fixTask.title)] := by
  have hwf : fixStoreB.WFNotifications := by
    intro p hp
    simp [fixStoreB] at hp
  have h := time_entry_fanout_single_assignee_creator_actor fixStoreB 0 1 1 2
    { taskId := 0, userId := 0, startTime := 5 } fixTask { id := 1, taskId := 1, userId := 2 }
    hwf rfl rfl rfl rfl (by decide)
  exact ⟨⟨hwf, rfl, rfl, rfl⟩, h.1⟩

/-- C3 counterexample: in the comment handler the comment_added broadcast is
dispatched before the derived Notification records are persisted, so the
claimed order (all Notification persists strictly before the broadcast)
fails on the concrete trace of actor 1 commenting on fixture task 1. -/
theorem comment_handler_broadcast_precedes_notification_persist :
    notifPersistsPrecedeBroadcasts (postComment fixStoreA 0 1 1 "hi").trace = false := by
  decide

/-- C3 amended: within the comment and time-entry handlers the side effects
are strictly ordered as: persistence of the primary mutation first, then the
single fan-out broadcast, then the derived Notification persists and their
directed sends (the tail holds no further broadcast). -/
theorem handler_effect_order_primary_broadcast_notifications
    (s s2 : MemStorage) (now now2 taskId taskId2 actor actor2 : Nat)
    (content : String) (body : InsertTimeEntry) (task task2 : Task)
    (hTask : s.getTask taskId = some task)
    (hTask2 : s2.getTask taskId2 = some task2) :
    (∃ tail, (postComment s now taskId actor content).trace
        = Effect.persistComment (MemStorage.createComment s now
            { taskId := taskId, userId := actor, content := content }).1
          :: Effect.broadcast (commentAddedMsg (MemStorage.createComment s now
            { taskId := taskId, userId := actor, content := content }).1 task) (some actor)
          :: tail
      ∧ ∀ e ∈ tail, e.isBroadcast = false
          ∧ (e.isPersistNotification = true ∨ e.isSendToUser = true))
  ∧ (∃ tail, (postTime s2 now2 taskId2 actor2 body).trace
        = Effect.persistTimeEntry (MemStorage.createTimeEntry s2
            { body with taskId := taskId2, userId := actor2 }).1
          :: Effect.broadcast (timeEntryAddedMsg taskId2 actor2
            (MemStorage.createTimeEntry s2
              { body with taskId := taskId2, userId := actor2 }).1 task2) none
          :: tail
      ∧ ∀ e ∈ tail, e.isBroadcast = false
          ∧ (e.isPersistNotification = true ∨ e.isSendToUser = true)) := by
  constructor
  · refine ⟨(notifyCommentAssignees now taskId actor task.title (s.getTaskAssignees taskId)
      (MemStorage.createComment s now
        { taskId := taskId, userId := actor, content := content }).2).2, ?_, ?_⟩
    · rw [postComment_eq s now taskId actor content task hTask]
    · exact fun e he => notifyCommentAssignees_effects now taskId actor task.title _ _ e he
  · refine ⟨(notifyTimeUsers now2 taskId2 actor2 task2.title
      (timeNotifyUsers (s2.getTaskAssignees taskId2) task2.createdById actor2)
      (MemStorage.createTimeEntry s2
        { body with taskId := taskId2, userId := actor2 }).2).2, ?_, ?_⟩
    · rw [postTime_eq s2 now2 taskId2 actor2 body task2 hTask2]
    · exact fun e he => notifyTimeUsers_effects now2 taskId2 actor2 task2.title _ _ e he

/-- Witness for the amended C3 at the fixture stores. -/
theorem handler_effect_order_witness :
    (fixStoreA.getTask 1 = some fixTask ∧ fixStoreB.getTask 1 = some fixTask)
  ∧ (∃ tail, (postComment fixStoreA 0 1 1 "hi").trace
      = Effect.persistComment (MemStorage.createComment fixStoreA 0
          { taskId := 1, userId := 1, content := "hi" }).1
        :: Effect.broadcast (commentAddedMsg (MemStorage.createComment fixStoreA 0
          { taskId := 1, userId := 1, content := "hi" }).1 fixTask) (some 1)
        :: tail
      ∧ ∀ e ∈ tail, e.isBroadcast = false
          ∧ (e.isPersistNotification = true ∨ e.isSendToUser = true)) := by
  have h := handler_effect_order_primary_broadcast_notifications fixStoreA fixStoreB
    0 0 1 1 1 1 "hi" { taskId := 0, userId := 0, startTime := 5 } fixTask fixTask rfl rfl
  exact ⟨⟨rfl, rfl⟩, h.1⟩

/-- C9: markNotificationAsRead sets isRead to true on an existing
notification; applying it again returns the same record with isRead still
true and leaves the state unchanged (no duplicate record is created and the
record count is preserved); the read endpoint dispatches no event on either
application; and no notification operation (markNotificationAsRead of any
id, createNotification of any input) ever turns a stored isRead from true
back to false — both operations also preserve the id-freshness invariant. -/
theorem mark_notification_read_idempotent_monotone
    (s : MemStorage) (i : Nat) (n : Notification)
    (hWF : s.WFNotifications)
    (hget : mapGet s.notifications i = some n) :
    (MemStorage.markNotificationAsRead s i).1 = some { n with isRead := true }
  ∧ mapGet (MemStorage.markNotificationAsRead s i).2.notifications i
      = some { n with isRead := true }
  ∧ (MemStorage.markNotificationAsRead s i).2.notifications.length
      = s.notifications.length
  ∧ MemStorage.markNotificationAsRead (MemStorage.markNotificationAsRead s i).2 i
      = (some { n with isRead := true }, (MemStorage.markNotificationAsRead s i).2)
  ∧ (putNotificationRead s i).trace = []
  ∧ (putNotificationRead (putNotificationRead s i).store i).trace = []
  ∧ (∀ j m k m2, mapGet s.notifications j = some m → m.isRead = true →
       mapGet (MemStorage.markNotificationAsRead s k).2.notifications j = some m2 →
       m2.isRead = true)
  ∧ (∀ j m now ins m2, mapGet s.notifications j = some m → m.isRead = true →
       mapGet (MemStorage.createNotification s now ins).2.notifications j = some m2 →
       m2.isRead = true)
  ∧ (MemStorage.markNotificationAsRead s i).2.WFNotifications
  ∧ (∀ now ins, (MemStorage.createNotification s now ins).2.WFNotifications) := by
  have h1 : MemStorage.markNotificationAsRead s i
      = (some { n with isRead := true },
         { s with notifications := mapSet s.notifications i { n with isRead := true } }) := by
    simp [MemStorage.markNotificationAsRead, hget]
  have hget2 : mapGet (MemStorage.markNotificationAsRead s i).2.notifications i
      = some { n with isRead := true } := by
    rw [h1]
    exact mapGet_mapSet_self _ _ _
  refine ⟨by rw [h1], hget2, ?_, ?_, ?_, ?_, ?_, ?_, ?_, ?_⟩
  · rw [h1]
    exact length_mapSet_present _ _ _ n hget
  · rw [h1]
    simp [MemStorage.markNotificationAsRead, mapGet_mapSet_self, mapSet_mapSet_same]
  · simp [putNotificationRead, h1]
  · have hp1 : putNotificationRead s i
        = { status := 200,
            store := { s with notifications := mapSet s.notifications i
                                { n with isRead := true } },
            trace := [] } := by
      simp [putNotificationRead, h1]
    rw [hp1]
    simp [putNotificationRead, MemStorage.markNotificationAsRead, mapGet_mapSet_self]
  · intro j m k m2 hm hmr hm2
    cases hk : mapGet s.notifications k with
    | none =>
      simp [MemStorage.markNotificationAsRead, hk] at hm2
      rw [hm] at hm2
      cases hm2
      exact hmr
    | some nk =>
      have hk1 : MemStorage.markNotificationAsRead s k
          = (some { nk with isRead := true },
             { s with notifications := mapSet s.notifications k { nk with isRead := true } }) := by
        simp [MemStorage.markNotificationAsRead, hk]
      rw [hk1] at hm2
      by_cases hjk : j = k
      · subst hjk
        rw [mapGet_mapSet_self] at hm2
        cases hm2
        rfl
      · rw [mapGet_mapSet_ne _ _ _ _ hjk] at hm2
        rw [hm] at hm2
        cases hm2
        exact hmr
  · intro j m now ins m2 hm hmr hm2
    have hmem := mapGet_some_mem _ _ _ hm
    have hj : j ≠ s.notificationId := Nat.ne_of_lt (hWF (j, m) hmem)
    simp only [MemStorage.createNotification] at hm2
    rw [mapGet_mapSet_ne _ _ _ _ hj] at hm2
    rw [hm] at hm2
    cases hm2
    exact hmr
  · rw [h1]
    intro p hp
    rcases mem_mapSet _ _ _ _ hp with h | h
    · exact hWF p h
    · subst h
      exact hWF (i, n) (mapGet_some_mem _ _ _ hget)
  · intro now ins p hp
    simp only [MemStorage.createNotification] at hp ⊢
    rcases mem_mapSet _ _ _ _ hp with h | h
    · exact Nat.lt_succ_of_lt (hWF p h)
    · subst h
      exact Nat.lt_succ_self _

/-- Witness for C9 at the fixture store holding one unread notification. -/
theorem mark_notification_read_idempotent_monotone_witness :
    (fixStoreN.WFNotifications ∧ mapGet fixStoreN.notifications 1 = some fixNotif)
  ∧ (MemStorage.markNotificationAsRead fixStoreN 1).1 = some { fixNotif with isRead := true }
  ∧ MemStorage.markNotificationAsRead (MemStorage.markNotificationAsRead fixStoreN 1).2 1
      = (some { fixNotif with isRead := true },
         (MemStorage.markNotificationAsRead fixStoreN 1).2) := by
  have hwf : fixStoreN.WFNotifications := by
    intro p hp
    simp [fixStoreN] at hp
    simp [fixStoreN, hp]
  have h := mark_notification_read_idempotent_monotone fixStoreN 1 fixNotif hwf rfl
  exact ⟨⟨hwf, rfl⟩, h.1, h.2.2.2.1⟩

end TaskMgr
